import Mathlib

/-!
Shallow embedding of the validation core of the weeklycomp-scripts
repository (src/validator.py and src/sanitizer.py).

Strings are modelled as Lean `String`s and all operations work on their
underlying `List Char`.  Python builtins (`str.strip`, `str.split`,
`str.upper`, `str.capitalize`, `str.isdigit`, `int(...)`) are modelled
over the ASCII fragment: the whitespace class is the six ASCII
whitespace characters matched by Python's `\s`, digits are the ASCII
decimal digits, and case mapping is ASCII case mapping.  CPython
additionally accepts some non-ASCII whitespace/digit characters and
underscore grouping in `int`; those extensions are outside the model.
Fallible Python operations (tuple unpacking of `str.split`, `int(...)`)
are modelled with `Option`/`Except`: `none`/`.error` marks a raised
`ValueError`/`IndexError`.
-/

/-- ASCII whitespace, the characters matched by Python's `\s` class and
stripped by `str.strip()` / split on by `str.split()`. -/
def pyIsSpace (c : Char) : Bool :=
  c = ' ' || c = '\t' || c = '\n' || c = '\r' || c = '\x0b' || c = '\x0c'

/-- ASCII decimal digit, Python's `\d` / `str.isdigit` on ASCII input. -/
def isDig (c : Char) : Bool :=
  '0' ≤ c && c ≤ '9'

/-- ASCII English letter, the class `[A-Za-z]`. -/
def isEnglishLetter (c : Char) : Bool :=
  ('A' ≤ c && c ≤ 'Z') || ('a' ≤ c && c ≤ 'z')

/-- ASCII upper-casing of one character (Python `str.upper` per char). -/
def pyToUpperChar (c : Char) : Char :=
  if 'a' ≤ c ∧ c ≤ 'z' then Char.ofNat (c.toNat - 32) else c

/-- ASCII lower-casing of one character (Python `str.lower` per char). -/
def pyToLowerChar (c : Char) : Char :=
  if 'A' ≤ c ∧ c ≤ 'Z' then Char.ofNat (c.toNat + 32) else c

/-- Python `str.upper()`. -/
def pyUpper (s : String) : String :=
  ⟨s.data.map pyToUpperChar⟩

/-- Strip leading and trailing whitespace from a character list. -/
def stripL (l : List Char) : List Char :=
  ((l.dropWhile pyIsSpace).reverse.dropWhile pyIsSpace).reverse

/-- Python `str.strip()`. -/
def pyStrip (s : String) : String :=
  ⟨stripL s.data⟩

/-- Python `str.split(sep)` for a one-character separator `sep`:
split at every occurrence, keeping empty pieces. -/
def pySplitOnChar (sep : Char) : List Char → List Char → List (List Char)
  | [], acc => [acc.reverse]
  | c :: cs, acc =>
    if c = sep then acc.reverse :: pySplitOnChar sep cs []
    else pySplitOnChar sep cs (c :: acc)

/-- Python `str.split()` with no separator: split on runs of whitespace,
discarding empty tokens. -/
def pySplitWsAux : List Char → List Char → List (List Char)
  | [], acc => if acc.isEmpty then [] else [acc.reverse]
  | c :: cs, acc =>
    if pyIsSpace c then
      if acc.isEmpty then pySplitWsAux cs []
      else acc.reverse :: pySplitWsAux cs []
    else pySplitWsAux cs (c :: acc)

/-- Whitespace tokenisation of a string (Python `str.split()`). -/
def pySplitWs (s : String) : List (List Char) :=
  pySplitWsAux s.data []

/-- Python `str.capitalize()` on a token: first character upper-cased,
the rest lower-cased. -/
def pyCapitalizeL : List Char → List Char
  | [] => []
  | c :: cs => pyToUpperChar c :: cs.map pyToLowerChar

/-- Join a list of tokens with single spaces (Python `" ".join`). -/
def joinSpaceL : List (List Char) → List Char
  | [] => []
  | [w] => w
  | w :: ws => w ++ ' ' :: joinSpaceL ws

/-- Numeric value of an ASCII digit string (most significant first). -/
def digitsToNat (l : List Char) : Nat :=
  l.foldl (fun acc c => 10 * acc + (c.toNat - '0'.toNat)) 0

/-- Parse a nonempty all-digit character list, `none` otherwise. -/
def digitsToNat? (l : List Char) : Option Nat :=
  if !l.isEmpty && l.all isDig then some (digitsToNat l) else none

/-- Parse of the whitespace-stripped text of Python `int(s)`: an
optional sign followed by a nonempty digit run. -/
def pyIntCore : List Char → Option Int
  | [] => none
  | c :: ds =>
    if c = '+' then (digitsToNat? ds).map (fun n => (n : Int))
    else if c = '-' then (digitsToNat? ds).map (fun n => -(n : Int))
    else (digitsToNat? (c :: ds)).map (fun n => (n : Int))

/-- Python `int(s)`: strip surrounding whitespace, optional sign, then a
nonempty digit run; `none` models a raised `ValueError`. -/
def pyInt? (s : String) : Option Int :=
  pyIntCore (stripL s.data)

/-- Python exceptions that the validation core can raise internally. -/
inductive PyErr : Type
  | valueError : PyErr
  | indexError : PyErr
deriving DecidableEq

/-- Tail stage of the `^(\d+)/(\d+) (\S+)$` match: `w` is the maximal
nonempty run of non-whitespace after the literal space (the `\S+`
group) and `t` is what follows it.  Python's `$` matches at the end of
the string or just before one final newline, so `t` must be `[]` or a
single newline. -/
def mbTail (d1 d2 w t : List Char) :
    Option (List Char × List Char × List Char) :=
  if w.isEmpty then none
  else if t = [] ∨ t = ['\n'] then some (d1, d2, w) else none

/-- Middle stage of the match: `d2` is the maximal digit run after the
`/` (the second `\d+` group), `r3` what follows it; a literal space must
come next. -/
def mbAfterD2 (d1 d2 r3 : List Char) :
    Option (List Char × List Char × List Char) :=
  if d2.isEmpty then none
  else
    match r3 with
    | [] => none
    | c2 :: r4 =>
      if c2 = ' ' then
        mbTail d1 d2 (r4.takeWhile (fun ch => !pyIsSpace ch))
          (r4.dropWhile (fun ch => !pyIsSpace ch))
      else none

/-- First stage of the match: `d1` is the maximal digit run at the start
of the string (the first `\d+` group), `r1` what follows it; a literal
`/` must come next. -/
def mbAfterD1 (d1 r1 : List Char) :
    Option (List Char × List Char × List Char) :=
  if d1.isEmpty then none
  else
    match r1 with
    | [] => none
    | c :: r2 =>
      if c = '/' then mbAfterD2 d1 (r2.takeWhile isDig) (r2.dropWhile isDig)
      else none

/-- Anchored match of `^(\d+)/(\d+) (\S+)$` (Python `re.match` with the
pattern both source files use), returning the three captured groups.
The greedy `\d+` groups are forced to be the maximal digit runs because
the characters that must follow them (`/` and a space) are not digits;
the dispatcher always strips its input first, so the trailing-newline
case of `$` cannot arise there. -/
def multiblindMatch? (s : String) :
    Option (List Char × List Char × List Char) :=
  mbAfterD1 (s.data.takeWhile isDig) (s.data.dropWhile isDig)

namespace Validator

/- Embedding of src/validator.py. -/

def NAME_KEY : String := "Name"

def TIMESTAMP_KEY : String := "חותמת זמן"

/-- `is_english`: `re.match(r"^[A-Za-z\s]*$", text)`, i.e. every
character is an English letter or whitespace. -/
def is_english (text : String) : Bool :=
  text.data.all (fun c => isEnglishLetter c || pyIsSpace c)

/-- `validate_name`: strip, reject non-English, capitalize each token,
require at least two tokens, join with single spaces. -/
def validate_name (raw_name : String) : String × Bool :=
  let stripped_string := pyStrip raw_name
  if ¬ is_english stripped_string then (stripped_string, false)
  else
    let name_tokens := (pySplitWs stripped_string).map pyCapitalizeL
    if name_tokens.length < 2 then (stripped_string, false)
    else (⟨joinSpaceL name_tokens⟩, true)

/-- `is_time_duration`: empty is valid; otherwise a `.` is required.
With a `:` the string is unpacked as `minutes:rest` (exactly one `:`),
`seconds` is re-bound to the part of `rest` before the first `.`, and
milliseconds are taken from that re-bound string — which no longer
contains a `.`, so they always default to `"00"`.  Without a `:` the
string is unpacked as `minutes.milliseconds` with seconds `"00"`.
`none` at the unpacking or at `int(...)` models the `ValueError` caught
by the function's own `try/except`, which yields `False`. -/
def is_time_duration (raw_time : String) : Bool :=
  if raw_time = "" then true
  else if raw_time.data.any (fun c => c = '.') then
    let fields :=
      if raw_time.data.any (fun c => c = ':') then
        match pySplitOnChar ':' raw_time.data [] with
        | [m, rest] =>
          let s1 := ((pySplitOnChar '.' rest []).headD [])
          let ms :=
            if s1.any (fun c => c = '.') then
              ((pySplitOnChar '.' s1 []).drop 1).headD []
            else ['0', '0']
          some (m, s1, ms)
        | _ => none
      else
        match pySplitOnChar '.' raw_time.data [] with
        | [m, ms] => some (m, ['0', '0'], ms)
        | _ => none
    match fields with
    | none => false
    | some (m, s, ms) =>
      match pyInt? ⟨m⟩, pyInt? ⟨s⟩, pyInt? ⟨ms⟩ with
      | some mi, some si, some msi =>
        decide (0 ≤ mi ∧ mi < 60) && decide (0 ≤ si ∧ si < 60) &&
          decide (0 ≤ msi ∧ msi < 100)
      | _, _, _ => false
  else false

/-- `is_multiblind_result`, exceptions explicit: the two `int(...)`
calls on the captured groups are not guarded in the source, so a parse
failure is a raised `ValueError` here.  (The match guarantees the groups
are nonempty digit strings, so the error branches are unreachable; see
`is_multiblind_resultE_ok`.) -/
def is_multiblind_resultE (s : String) : Except PyErr Bool :=
  match multiblindMatch? s with
  | none => .ok false
  | some (d1, d2, w) =>
    match pyInt? ⟨d1⟩ with
    | none => .error .valueError
    | some solved =>
      match pyInt? ⟨d2⟩ with
      | none => .error .valueError
      | some total =>
        if solved > total then .ok false
        else .ok (is_time_duration ⟨w⟩)

/-- `is_multiblind_result`, total form.  The defensive `false` branch
for a failed `int(...)` is unreachable because the regex groups are
nonempty digit strings (`is_multiblind_resultE_ok` proves agreement with
the exception-explicit form). -/
def is_multiblind_result (s : String) : Bool :=
  match multiblindMatch? s with
  | none => false
  | some (d1, d2, w) =>
    match pyInt? ⟨d1⟩, pyInt? ⟨d2⟩ with
    | some solved, some total =>
      if solved > total then false else is_time_duration ⟨w⟩
    | _, _ => false

/-- `is_fmc_result`: Python `str.isdigit()` — nonempty and all digits. -/
def is_fmc_result (input_str : String) : Bool :=
  !input_str.data.isEmpty && input_str.data.all isDig

/-- `validate_time`: strip; empty and case-insensitive `DNF` are
intercepted as valid; otherwise the grammar is chosen from the
`event_result_validators` dict by exact event name, defaulting to
`is_time_duration`. -/
def validate_time (event : String) (raw_time : String) : String × Bool :=
  let stripped_string := pyStrip raw_time
  if stripped_string = "" then ("", true)
  else if pyUpper stripped_string = "DNF" then ("DNF", true)
  else
    let ok :=
      if event = "Multiblind" then is_multiblind_result stripped_string
      else if event = "FMC" then is_fmc_result stripped_string
      else is_time_duration stripped_string
    if ok then (stripped_string, true) else (stripped_string, false)

/-- `validate_time`, exceptions explicit (propagating what
`is_multiblind_result` may raise). -/
def validate_timeE (event : String) (raw_time : String) :
    Except PyErr (String × Bool) :=
  let stripped_string := pyStrip raw_time
  if stripped_string = "" then .ok ("", true)
  else if pyUpper stripped_string = "DNF" then .ok ("DNF", true)
  else if event = "Multiblind" then
    match is_multiblind_resultE stripped_string with
    | .error e => .error e
    | .ok ok => if ok then .ok (stripped_string, true)
                else .ok (stripped_string, false)
  else if event = "FMC" then
    if is_fmc_result stripped_string then .ok (stripped_string, true)
    else .ok (stripped_string, false)
  else
    if is_time_duration stripped_string then .ok (stripped_string, true)
    else .ok (stripped_string, false)

/-- `validate_cell`: dispatch on the column name. -/
def validate_cell (cell : String) (column : String) : String × Bool :=
  if column = NAME_KEY then validate_name cell
  else if column = TIMESTAMP_KEY then (cell, true)
  else validate_time column cell

/-- `validate_cell`, exceptions explicit. -/
def validateCellE (cell : String) (column : String) :
    Except PyErr (String × Bool) :=
  if column = NAME_KEY then .ok (validate_name cell)
  else if column = TIMESTAMP_KEY then .ok (cell, true)
  else validate_timeE column cell

end Validator

namespace Sanitizer

/- Embedding of src/sanitizer.py.  The file is an independent copy of
the same validation core; its functions are embedded separately so that
the equivalence with src/validator.py is a theorem, not an assumption. -/

def NAME_KEY : String := "Name"

def TIMESTAMP_KEY : String := "חותמת זמן"

/-- `is_english` in src/sanitizer.py. -/
def is_english (text : String) : Bool :=
  text.data.all (fun c => isEnglishLetter c || pyIsSpace c)

/-- `sanitize_name` in src/sanitizer.py. -/
def sanitize_name (raw_name : String) : String × Bool :=
  let stripped_string := pyStrip raw_name
  if ¬ is_english stripped_string then (stripped_string, false)
  else
    let name_tokens := (pySplitWs stripped_string).map pyCapitalizeL
    if name_tokens.length < 2 then (stripped_string, false)
    else (⟨joinSpaceL name_tokens⟩, true)

/-- `is_time_duration` in src/sanitizer.py (same text as in
src/validator.py, including the defaulted milliseconds in the colon
branch). -/
def is_time_duration (raw_time : String) : Bool :=
  if raw_time = "" then true
  else if raw_time.data.any (fun c => c = '.') then
    let fields :=
      if raw_time.data.any (fun c => c = ':') then
        match pySplitOnChar ':' raw_time.data [] with
        | [m, rest] =>
          let s1 := ((pySplitOnChar '.' rest []).headD [])
          let ms :=
            if s1.any (fun c => c = '.') then
              ((pySplitOnChar '.' s1 []).drop 1).headD []
            else ['0', '0']
          some (m, s1, ms)
        | _ => none
      else
        match pySplitOnChar '.' raw_time.data [] with
        | [m, ms] => some (m, ['0', '0'], ms)
        | _ => none
    match fields with
    | none => false
    | some (m, s, ms) =>
      match pyInt? ⟨m⟩, pyInt? ⟨s⟩, pyInt? ⟨ms⟩ with
      | some mi, some si, some msi =>
        decide (0 ≤ mi ∧ mi < 60) && decide (0 ≤ si ∧ si < 60) &&
          decide (0 ≤ msi ∧ msi < 100)
      | _, _, _ => false
  else false

/-- `is_multiblind_result` in src/sanitizer.py. -/
def is_multiblind_result (s : String) : Bool :=
  match multiblindMatch? s with
  | none => false
  | some (d1, d2, w) =>
    match pyInt? ⟨d1⟩, pyInt? ⟨d2⟩ with
    | some solved, some total =>
      if solved > total then false else is_time_duration ⟨w⟩
    | _, _ => false

/-- `is_fmc_result` in src/sanitizer.py. -/
def is_fmc_result (input_str : String) : Bool :=
  !input_str.data.isEmpty && input_str.data.all isDig

/-- `sanitize_time` in src/sanitizer.py. -/
def sanitize_time (event : String) (raw_time : String) : String × Bool :=
  let stripped_string := pyStrip raw_time
  if stripped_string = "" then ("", true)
  else if pyUpper stripped_string = "DNF" then ("DNF", true)
  else
    let ok :=
      if event = "Multiblind" then is_multiblind_result stripped_string
      else if event = "FMC" then is_fmc_result stripped_string
      else is_time_duration stripped_string
    if ok then (stripped_string, true) else (stripped_string, false)

/-- `sanitize_cell` in src/sanitizer.py. -/
def sanitize_cell (cell : String) (column : String) : String × Bool :=
  if column = NAME_KEY then sanitize_name cell
  else if column = TIMESTAMP_KEY then (cell, true)
  else sanitize_time column cell

end Sanitizer

/-!  Helper lemmas. -/

theorem all_takeWhile {α : Type} (p : α → Bool) (l : List α) :
    (l.takeWhile p).all p = true :=
  List.all_eq_true.mpr (fun _ hx => List.mem_takeWhile_imp hx)

theorem isDig_not_space {c : Char} (h : isDig c = true) :
    pyIsSpace c = false := by
  cases hs : pyIsSpace c
  · rfl
  · exfalso
    simp only [pyIsSpace, Bool.or_eq_true, decide_eq_true_eq] at hs
    rcases hs with ((((rfl | rfl) | rfl) | rfl) | rfl) | rfl <;>
      exact absurd h (by decide)

theorem dropWhile_spaces_of_digits :
    ∀ {l : List Char}, l.all isDig = true → l.dropWhile pyIsSpace = l
  | [], _ => rfl
  | a :: t, h => by
    have ha : isDig a = true := by
      simp only [List.all_cons, Bool.and_eq_true] at h
      exact h.1
    exact List.dropWhile_cons_of_neg (by simp [isDig_not_space ha])

theorem stripL_digits {l : List Char} (h : l.all isDig = true) :
    stripL l = l := by
  unfold stripL
  rw [dropWhile_spaces_of_digits h,
    dropWhile_spaces_of_digits (by rw [List.all_reverse]; exact h),
    List.reverse_reverse]

theorem digitsToNat?_digits {l : List Char} (hne : l ≠ [])
    (h : l.all isDig = true) : digitsToNat? l = some (digitsToNat l) := by
  unfold digitsToNat?
  simp [List.isEmpty_eq_false.mpr hne, h]

theorem pyIntCore_digits {l : List Char} (hne : l ≠ [])
    (h : l.all isDig = true) :
    pyIntCore l = some ((digitsToNat l : Int)) := by
  obtain ⟨c, t, rfl⟩ := List.exists_cons_of_ne_nil hne
  have hc : isDig c = true := by
    simp only [List.all_cons, Bool.and_eq_true] at h
    exact h.1
  have hplus : c ≠ '+' := by rintro rfl; exact absurd hc (by decide)
  have hminus : c ≠ '-' := by rintro rfl; exact absurd hc (by decide)
  simp [pyIntCore, hplus, hminus, digitsToNat?_digits hne h]

theorem pyInt?_digits {l : List Char} (hne : l ≠ [])
    (h : l.all isDig = true) :
    pyInt? ⟨l⟩ = some ((digitsToNat l : Int)) := by
  unfold pyInt?
  have hd : (⟨l⟩ : String).data = l := rfl
  rw [hd, stripL_digits h]
  exact pyIntCore_digits hne h

theorem mbTail_some {d1 d2 w t a b c : List Char}
    (h : mbTail d1 d2 w t = some (a, b, c)) :
    a = d1 ∧ b = d2 ∧ c = w ∧ w ≠ [] := by
  unfold mbTail at h
  by_cases hw : w.isEmpty
  · rw [if_pos hw] at h
    cases h
  · rw [if_neg hw] at h
    by_cases htl : t = [] ∨ t = ['\n']
    · rw [if_pos htl] at h
      simp only [Option.some.injEq, Prod.mk.injEq] at h
      obtain ⟨rfl, rfl, rfl⟩ := h
      exact ⟨rfl, rfl, rfl, fun hnil => hw (List.isEmpty_iff.mpr hnil)⟩
    · rw [if_neg htl] at h
      cases h

theorem mbAfterD2_some {d1 d2 r3 a b c : List Char}
    (h : mbAfterD2 d1 d2 r3 = some (a, b, c)) :
    a = d1 ∧ b = d2 ∧ d2 ≠ [] ∧ c ≠ [] := by
  unfold mbAfterD2 at h
  by_cases h2 : d2.isEmpty
  · rw [if_pos h2] at h
    cases h
  · rw [if_neg h2] at h
    split at h
    · cases h
    · split at h
      · obtain ⟨rfl, rfl, rfl, hw⟩ := mbTail_some h
        exact ⟨rfl, rfl, fun hnil => h2 (List.isEmpty_iff.mpr hnil), hw⟩
      · cases h

theorem mbAfterD1_some {d1 r1 a b c : List Char}
    (h : mbAfterD1 d1 r1 = some (a, b, c)) :
    a = d1 ∧ d1 ≠ [] ∧ b.all isDig = true ∧ b ≠ [] ∧ c ≠ [] := by
  unfold mbAfterD1 at h
  by_cases h1 : d1.isEmpty
  · rw [if_pos h1] at h
    cases h
  · rw [if_neg h1] at h
    split at h
    · cases h
    · split at h
      · obtain ⟨rfl, rfl, h2ne, hcne⟩ := mbAfterD2_some h
        exact ⟨rfl, fun hnil => h1 (List.isEmpty_iff.mpr hnil),
          all_takeWhile _ _, h2ne, hcne⟩
      · cases h

theorem multiblindMatch?_groups {s : String} {d1 d2 w : List Char}
    (h : multiblindMatch? s = some (d1, d2, w)) :
    d1 ≠ [] ∧ d1.all isDig = true ∧ d2 ≠ [] ∧ d2.all isDig = true ∧
      w ≠ [] := by
  unfold multiblindMatch? at h
  obtain ⟨rfl, h1ne, h2d, h2ne, hwne⟩ := mbAfterD1_some h
  exact ⟨h1ne, all_takeWhile _ _, h2ne, h2d, hwne⟩

theorem is_multiblind_resultE_ok (s : String) :
    Validator.is_multiblind_resultE s =
      Except.ok (Validator.is_multiblind_result s) := by
  unfold Validator.is_multiblind_resultE Validator.is_multiblind_result
  cases hm : multiblindMatch? s with
  | none => simp
  | some g =>
    obtain ⟨d1, d2, w⟩ := g
    obtain ⟨h1ne, h1d, h2ne, h2d, -⟩ := multiblindMatch?_groups hm
    simp only [pyInt?_digits h1ne h1d, pyInt?_digits h2ne h2d]
    by_cases hgt : (digitsToNat d1 : Int) > (digitsToNat d2 : Int)
    · simp [hgt]
    · simp [hgt]

/-!  Theorems about the embedded validation core. -/

/-- C1: the plain-duration grammar is claimed to parse the segment after
the `.` of a colon-form input as milliseconds and reject it when out of
range or unparsable; the code instead re-reads the already-truncated
seconds string, so colon-form milliseconds always default to `"00"`:
`"1:2.999"` (milliseconds 999, out of range) is accepted, while the
dot form `"1.999"` does enforce the milliseconds range. -/
theorem is_time_duration_colon_ms_ignored :
    Validator.is_time_duration "1:2.999" = true ∧
      Validator.is_time_duration "1:2.xy" = true ∧
      Validator.is_time_duration "1.999" = false :=
  ⟨by decide, by decide, by decide⟩

/-- C5: the digit-count grammar accepts exactly the nonempty strings of
decimal digits; `"42"` is accepted, `"4a"` and `""` are rejected at the
grammar level, and the dispatcher still accepts an empty FMC cell
because it intercepts it before the grammar runs. -/
theorem is_fmc_result_spec :
    (∀ s : String,
        Validator.is_fmc_result s = true ↔
          s.data ≠ [] ∧ s.data.all isDig = true) ∧
      Validator.is_fmc_result "42" = true ∧
      Validator.is_fmc_result "4a" = false ∧
      Validator.is_fmc_result "" = false ∧
      Validator.validate_cell "" "FMC" = ("", true) := by
  refine ⟨fun s => ?_, by decide, by decide, by decide, by decide⟩
  simp [Validator.is_fmc_result, List.isEmpty_iff]

/-- C10: src/validator.py and src/sanitizer.py implement the same
validation core — the cell dispatchers and every helper grammar agree
on all inputs. -/
theorem validator_sanitizer_equiv :
    (∀ cell column,
        Validator.validate_cell cell column = Sanitizer.sanitize_cell cell column) ∧
      (∀ s, Validator.validate_name s = Sanitizer.sanitize_name s) ∧
      (∀ event s, Validator.validate_time event s = Sanitizer.sanitize_time event s) ∧
      (∀ s, Validator.is_time_duration s = Sanitizer.is_time_duration s) ∧
      (∀ s, Validator.is_multiblind_result s = Sanitizer.is_multiblind_result s) ∧
      (∀ s, Validator.is_fmc_result s = Sanitizer.is_fmc_result s) :=
  ⟨fun _ _ => rfl, fun _ => rfl, fun _ _ => rfl, fun _ => rfl,
    fun _ => rfl, fun _ => rfl⟩

/-- C9 counterexample: a cell trimming to `"dnf"` is not passed through
unchanged — the dispatcher returns the canonical upper-case `"DNF"`,
not the trimmed input `"dnf"`. -/
theorem dnf_not_passed_through_unchanged :
    Validator.validate_cell "dnf" "3x3" = ("DNF", true) ∧
      pyStrip "dnf" ≠ "DNF" :=
  ⟨by decide, by decide⟩

/-- C9 (amended): for every event column, a cell whose trimmed value is
case-insensitively equal to `"DNF"` is accepted, and the returned string
is the canonical upper-case sentinel `"DNF"`. -/
theorem dnf_sentinel_accepted (column cell : String)
    (hn : column ≠ Validator.NAME_KEY)
    (ht : column ≠ Validator.TIMESTAMP_KEY)
    (hd : pyUpper (pyStrip cell) = "DNF") :
    Validator.validate_cell cell column = ("DNF", true) := by
  have hne : pyStrip cell ≠ "" := by
    intro h
    rw [h] at hd
    exact absurd hd (by decide)
  simp [Validator.validate_cell, hn, ht, Validator.validate_time, hne, hd]

/-- C9 witness: the amended claim at column `"3x3"` and cell `" dnf "`. -/
theorem dnf_sentinel_accepted_witness :
    Validator.validate_cell " dnf " "3x3" = ("DNF", true) :=
  dnf_sentinel_accepted "3x3" " dnf " (by decide) (by decide) (by decide)

theorem if_flag_pair (b : Bool) (x : String) :
    (if b then (x, true) else (x, false)) = (x, b) := by
  cases b <;> rfl

theorem validate_name_snd_false {s : String}
    (h : (Validator.validate_name s).2 = false) :
    (Validator.validate_name s).1 = pyStrip s := by
  by_cases h1 : Validator.is_english (pyStrip s) = true
  · by_cases h2 : (pySplitWs (pyStrip s)).length < 2
    · simp [Validator.validate_name, h1, h2]
    · simp [Validator.validate_name, h1, h2] at h
  · simp [Validator.validate_name, h1]

theorem validate_time_snd_false {event s : String}
    (h : (Validator.validate_time event s).2 = false) :
    (Validator.validate_time event s).1 = pyStrip s := by
  by_cases he : pyStrip s = ""
  · simp [Validator.validate_time, he] at h
  · by_cases hd : pyUpper (pyStrip s) = "DNF"
    · simp [Validator.validate_time, he, hd] at h
    · simp only [Validator.validate_time, eq_false he, eq_false hd, if_false]
      rw [if_flag_pair]

/-- C2: the name grammar trims its input; if the trimmed string has a
character outside the embedded English-letter/whitespace class, or
fewer than two whitespace-separated tokens, it returns the trimmed
string with valid false; otherwise it returns the per-token title-cased,
single-space-joined string with valid true. -/
theorem validate_name_spec (s : String) :
    Validator.validate_name s =
      if ((pyStrip s).data.all (fun c => isEnglishLetter c || pyIsSpace c) = true)
          ∧ 2 ≤ (pySplitWs (pyStrip s)).length then
        (⟨joinSpaceL ((pySplitWs (pyStrip s)).map pyCapitalizeL)⟩, true)
      else (pyStrip s, false) := by
  by_cases h1 : (pyStrip s).data.all (fun c => isEnglishLetter c || pyIsSpace c) = true
  · by_cases h2 : 2 ≤ (pySplitWs (pyStrip s)).length
    · have hlt : ¬ ((pySplitWs (pyStrip s)).map pyCapitalizeL).length < 2 := by
        rw [List.length_map]
        omega
      simp [Validator.validate_name, Validator.is_english, h1, h2, hlt]
    · have hlt : ((pySplitWs (pyStrip s)).map pyCapitalizeL).length < 2 := by
        rw [List.length_map]
        omega
      simp [Validator.validate_name, Validator.is_english, h1, h2, hlt]
  · simp [Validator.validate_name, Validator.is_english, h1]

/-- C3: for every event column (neither the name column nor the
timestamp column), a cell that trims to the empty string is returned as
`("", true)` and a cell whose trimmed value upper-cases to `"DNF"` is
returned as `("DNF", true)`, regardless of the grammar of the column. -/
theorem event_cell_interceptions (column cell : String)
    (hn : column ≠ Validator.NAME_KEY)
    (ht : column ≠ Validator.TIMESTAMP_KEY) :
    (pyStrip cell = "" →
        Validator.validate_cell cell column = ("", true)) ∧
      (pyUpper (pyStrip cell) = "DNF" →
        Validator.validate_cell cell column = ("DNF", true)) := by
  constructor
  · intro h
    simp [Validator.validate_cell, hn, ht, Validator.validate_time, h]
  · intro h
    have hne : pyStrip cell ≠ "" := by
      intro h0
      rw [h0] at h
      exact absurd h (by decide)
    simp [Validator.validate_cell, hn, ht, Validator.validate_time, hne, h]

/-- C3 witness: the empty interception at column `"3x3"` and a
whitespace-only cell. -/
theorem event_cell_interceptions_witness :
    Validator.validate_cell "   " "3x3" = ("", true) :=
  (event_cell_interceptions "3x3" "   " (by decide) (by decide)).1 (by decide)

/-- C4: the multi-attempt composite grammar accepts exactly the strings
matching `^(\d+)/(\d+) (\S+)$` whose first captured integer is at most
the second and whose third group passes the plain-duration grammar;
`"1/2 12:34.56"` is accepted, `"3/2 12:34.56"` (solved greater than
attempted) and `"1/2 99:99.99"` (bad duration) are rejected. -/
theorem is_multiblind_result_spec :
    (∀ s : String,
        Validator.is_multiblind_result s = true ↔
          ∃ d1 d2 w, multiblindMatch? s = some (d1, d2, w) ∧
            digitsToNat d1 ≤ digitsToNat d2 ∧
            Validator.is_time_duration ⟨w⟩ = true) ∧
      Validator.is_multiblind_result "1/2 12:34.56" = true ∧
      Validator.is_multiblind_result "3/2 12:34.56" = false ∧
      Validator.is_multiblind_result "1/2 99:99.99" = false := by
  refine ⟨fun s => ?_, by decide, by decide, by decide⟩
  constructor
  · intro h
    unfold Validator.is_multiblind_result at h
    cases hm : multiblindMatch? s with
    | none => rw [hm] at h; cases h
    | some g =>
      obtain ⟨d1, d2, w⟩ := g
      obtain ⟨h1ne, h1d, h2ne, h2d, -⟩ := multiblindMatch?_groups hm
      rw [hm] at h
      simp only [pyInt?_digits h1ne h1d, pyInt?_digits h2ne h2d] at h
      refine ⟨d1, d2, w, rfl, ?_, ?_⟩
      · by_contra hle
        have hgt : (digitsToNat d1 : Int) > (digitsToNat d2 : Int) := by
          omega
        rw [if_pos hgt] at h
        cases h
      · by_cases hgt : (digitsToNat d1 : Int) > (digitsToNat d2 : Int)
        · rw [if_pos hgt] at h
          cases h
        · rw [if_neg hgt] at h
          exact h
  · rintro ⟨d1, d2, w, hm, hle, hdur⟩
    obtain ⟨h1ne, h1d, h2ne, h2d, -⟩ := multiblindMatch?_groups hm
    unfold Validator.is_multiblind_result
    rw [hm]
    simp only [pyInt?_digits h1ne h1d, pyInt?_digits h2ne h2d]
    have hngt : ¬ (digitsToNat d1 : Int) > (digitsToNat d2 : Int) := by
      omega
    rw [if_neg hngt]
    exact hdur

/-- C6 counterexample: the claim says the returned validity always
equals the selected grammar's verdict on the trimmed cell, but an empty
FMC cell is returned valid although the digit-count grammar rejects the
empty string. -/
theorem dispatch_claim_cex :
    Validator.validate_cell "" "FMC" = ("", true) ∧
      Validator.is_fmc_result (pyStrip "") = false :=
  ⟨by decide, by decide⟩

/-- C6 (amended): the timestamp column is passed through unchanged and
always valid; for every other non-name column whose cell does not trim
to the empty string and does not trim to a case-insensitive `"DNF"`
(those two cases are intercepted first, per C3), the grammar is selected
by exact event name — composite for `"Multiblind"`, digit-count for
`"FMC"`, plain duration otherwise — and the result is the trimmed cell
with that grammar's verdict on it. -/
theorem validate_cell_dispatch_spec :
    (∀ cell, Validator.validate_cell cell Validator.TIMESTAMP_KEY =
        (cell, true)) ∧
      (∀ column cell, column ≠ Validator.NAME_KEY →
        column ≠ Validator.TIMESTAMP_KEY →
        pyStrip cell ≠ "" → pyUpper (pyStrip cell) ≠ "DNF" →
        Validator.validate_cell cell column =
          (pyStrip cell,
            if column = "Multiblind" then
              Validator.is_multiblind_result (pyStrip cell)
            else if column = "FMC" then
              Validator.is_fmc_result (pyStrip cell)
            else Validator.is_time_duration (pyStrip cell))) := by
  constructor
  · intro cell
    have hkey : Validator.TIMESTAMP_KEY ≠ Validator.NAME_KEY := by decide
    simp [Validator.validate_cell, hkey]
  · intro column cell hn ht he hd
    simp only [Validator.validate_cell, eq_false hn, eq_false ht,
      Validator.validate_time, eq_false he, eq_false hd, if_false]
    rw [if_flag_pair]

/-- C6 witness: the amended dispatch at column `"3x3"` and cell
`" 12.34 "`. -/
theorem validate_cell_dispatch_spec_witness :
    Validator.validate_cell " 12.34 " "3x3" = ("12.34", true) := by
  rw [validate_cell_dispatch_spec.2 "3x3" " 12.34 " (by decide) (by decide)
    (by decide) (by decide)]
  decide

/-- C7: whenever the column validator flags a cell invalid, the string
it returns is exactly the whitespace-trimmed original cell value. -/
theorem invalid_cell_keeps_trimmed (cell column : String)
    (h : (Validator.validate_cell cell column).2 = false) :
    (Validator.validate_cell cell column).1 = pyStrip cell := by
  by_cases hn : column = Validator.NAME_KEY
  · rw [Validator.validate_cell, if_pos hn] at h ⊢
    exact validate_name_snd_false h
  · by_cases ht : column = Validator.TIMESTAMP_KEY
    · rw [Validator.validate_cell, if_neg hn, if_pos ht] at h
      cases h
    · rw [Validator.validate_cell, if_neg hn, if_neg ht] at h ⊢
      exact validate_time_snd_false h

/-- C7 witness: an invalid plain-duration cell keeps its trimmed text. -/
theorem invalid_cell_keeps_trimmed_witness :
    (Validator.validate_cell " abc " "3x3").1 = pyStrip " abc " :=
  invalid_cell_keeps_trimmed " abc " "3x3" (by decide)

/-- C8: the column validator is total and never raises: the
exception-explicit embedding always returns `Except.ok`, and its value
is the one computed by the total embedding.  The only internally
fallible operations are the string-to-integer conversions and the tuple
unpacking in the duration grammar, which are caught there, and the
integer conversions of the composite grammar's captured groups, which
cannot fail because the groups are digit runs. -/
theorem validateCellE_total (cell column : String) :
    Validator.validateCellE cell column =
      Except.ok (Validator.validate_cell cell column) := by
  unfold Validator.validateCellE Validator.validate_cell
  by_cases hn : column = Validator.NAME_KEY
  · simp only [eq_true hn, if_true]
  · by_cases ht : column = Validator.TIMESTAMP_KEY
    · simp only [eq_false hn, eq_true ht, if_false, if_true]
    · simp only [eq_false hn, eq_false ht, if_false]
      unfold Validator.validate_timeE Validator.validate_time
      by_cases he : pyStrip cell = ""
      · simp only [eq_true he, if_true]
      · by_cases hd : pyUpper (pyStrip cell) = "DNF"
        · simp only [eq_false he, eq_true hd, if_false, if_true]
        · simp only [eq_false he, eq_false hd, if_false]
          rw [if_flag_pair]
          by_cases hM : column = "Multiblind"
          · simp only [eq_true hM, if_true, is_multiblind_resultE_ok]
            cases Validator.is_multiblind_result (pyStrip cell) <;> rfl
          · by_cases hF : column = "FMC"
            · simp only [eq_false hM, eq_true hF, if_false, if_true]
              cases Validator.is_fmc_result (pyStrip cell) <;> rfl
            · simp only [eq_false hM, eq_false hF, if_false]
              cases Validator.is_time_duration (pyStrip cell) <;> rfl
